import Mathlib

/-!
Verification development for the Couchbase full-text/vector-search adapter
(`CouchbaseSearch`).  The adapter itself is exercised only through its unit
tests in this tree, so the operations below are modelled from the design
specification: each definition's doc comment records which missing adapter
function it embeds.  Time is discrete (natural-number units), embedding
vectors are integer lists, and the two backend tiers (KV store and search
index managers) are passed in as explicit function parameters so that every
operation is a total, executable Lean function.
-/

namespace Agno

/-- Modelled from the spec: `LogicalDocument` — the logical document shape
`{name, content, meta_data, embedding, id}` returned by `search`. -/
structure LogicalDocument where
  name : String
  content : String
  meta_data : List (String × String)
  embedding : List Int
  id : String
deriving DecidableEq, Repr

/-- Modelled from the spec: the stored KV payload of a document, as read back
by the batched KV fetch during `search`. -/
structure StoredPayload where
  name : String
  content : String
  meta_data : List (String × String)
  embedding : List Int
deriving DecidableEq, Repr

/-- Modelled from the spec: the per-id outcome inside the KV tier's
`getMulti` response, `{success, value}`. -/
structure FetchResult where
  success : Bool
  value : StoredPayload
deriving DecidableEq, Repr

/-- Modelled from the spec: `SearchHit` — transient `{id, score}` pair
produced by a query. -/
structure SearchHit where
  id : String
  score : Int
deriving DecidableEq, Repr

/-- Modelled from the spec: materializing a `LogicalDocument` from a stored
payload, with its `id` set to the hit id. -/
def docOfPayload (p : StoredPayload) (hitId : String) : LogicalDocument :=
  { name := p.name, content := p.content, meta_data := p.meta_data,
    embedding := p.embedding, id := hitId }

/-- Modelled from the spec: the payload delivered for one id by the batched
KV fetch — `none` when the id is missing from the results or its fetch did
not succeed. -/
def fetchedPayload (fetch : String → Option FetchResult) (id : String) :
    Option StoredPayload :=
  match fetch id with
  | some r => if r.success then some r.value else none
  | none => none

/-- Modelled from the spec: `search` step 4/5 — for each hit id in hit order,
materialize a document from a successful KV fetch and skip failed or missing
ids. -/
def materializeHits (hits : List SearchHit) (fetch : String → Option FetchResult) :
    List LogicalDocument :=
  hits.filterMap fun h => (fetchedPayload fetch h.id).map fun p => docOfPayload p h.id

/-- Modelled from the spec: the two backend tiers `search` talks to — the
index tier returning ranked hits for a query bounded to `limit`, and the KV
tier's batched `getMulti` keyed by id. -/
structure SearchBackend where
  rows : String → Nat → List SearchHit
  get_multi : List String → String → Option FetchResult

/-- Modelled from the spec: `CouchbaseSearch.search` — execute the search
request, collect hit ids in result order, issue one batched KV fetch for all
hit ids, and merge into logical documents in the original hit order. -/
def search (b : SearchBackend) (query : String) (limit : Nat) : List LogicalDocument :=
  materializeHits (b.rows query limit)
    (b.get_multi ((b.rows query limit).map SearchHit.id))

theorem materializeHits_mem (hits : List SearchHit) (fetch : String → Option FetchResult)
    (d : LogicalDocument) (hd : d ∈ materializeHits hits fetch) :
    ∃ h ∈ hits, ∃ p, fetchedPayload fetch h.id = some p ∧
      d = docOfPayload p h.id ∧ d.id = h.id := by
  rw [materializeHits, List.mem_filterMap] at hd
  obtain ⟨h, hh, heq⟩ := hd
  cases hp : fetchedPayload fetch h.id with
  | none => rw [hp] at heq; simp at heq
  | some p =>
    rw [hp] at heq
    simp only [Option.map_some', Option.some.injEq] at heq
    exact ⟨h, hh, p, hp, heq.symm, by rw [← heq]; rfl⟩

theorem materializeHits_length (hits : List SearchHit) (fetch : String → Option FetchResult) :
    (materializeHits hits fetch).length
      = (hits.filter fun h => (fetchedPayload fetch h.id).isSome).length := by
  induction hits with
  | nil => rfl
  | cons h t ih =>
    rw [materializeHits, List.filterMap_cons, List.filter_cons]
    cases hp : fetchedPayload fetch h.id with
    | none => simpa [hp, materializeHits] using ih
    | some p => simpa [hp, materializeHits] using ih

theorem materializeHits_ids_sublist (hits : List SearchHit)
    (fetch : String → Option FetchResult) :
    List.Sublist ((materializeHits hits fetch).map LogicalDocument.id)
      (hits.map SearchHit.id) := by
  induction hits with
  | nil => simp [materializeHits]
  | cons h t ih =>
    cases hp : fetchedPayload fetch h.id with
    | none =>
      simp only [materializeHits, List.filterMap_cons, hp, Option.map_none', List.map_cons]
      exact List.Sublist.cons _ (by simpa [materializeHits] using ih)
    | some p =>
      simp only [materializeHits, List.filterMap_cons, hp, Option.map_some', List.map_cons,
        docOfPayload]
      exact List.Sublist.cons₂ _ (by simpa [materializeHits] using ih)

/-- Claim C1: every document returned by `search` is materialized from a
successful KV fetch of some hit id with its id set to that hit id; hits whose
fetch failed or is missing contribute nothing (no error, no placeholder, so
the result length is exactly the number of successfully fetched hits); and
the returned documents appear in the original hit order, not KV-fetch
order. -/
theorem search_materializes_hits_in_order (b : SearchBackend) (q : String) (limit : Nat) :
    (∀ d ∈ search b q limit, ∃ h ∈ b.rows q limit, ∃ p,
        fetchedPayload (b.get_multi ((b.rows q limit).map SearchHit.id)) h.id = some p ∧
        d = docOfPayload p h.id ∧ d.id = h.id)
    ∧ (search b q limit).length
        = ((b.rows q limit).filter fun h =>
            (fetchedPayload (b.get_multi ((b.rows q limit).map SearchHit.id)) h.id).isSome).length
    ∧ List.Sublist ((search b q limit).map LogicalDocument.id)
        ((b.rows q limit).map SearchHit.id) :=
  ⟨fun d hd => materializeHits_mem _ _ d hd,
   materializeHits_length _ _,
   materializeHits_ids_sublist _ _⟩

/-- A concrete backend: two hits `a` (score 9) and `missing` (score 5); only
`a` resolves in the KV tier. -/
def wBackend : SearchBackend where
  rows := fun _ _ => [⟨"a", 9⟩, ⟨"missing", 5⟩]
  get_multi := fun _ id =>
    if id = "a" then some ⟨true, ⟨"doc a", "content a", [], [1]⟩⟩ else none

theorem search_materializes_hits_in_order_witness :
    docOfPayload ⟨"doc a", "content a", [], [1]⟩ "a" ∈ search wBackend "q" 5 ∧
    (∃ h ∈ wBackend.rows "q" 5, ∃ p,
        fetchedPayload (wBackend.get_multi ((wBackend.rows "q" 5).map SearchHit.id)) h.id
          = some p ∧
        docOfPayload ⟨"doc a", "content a", [], [1]⟩ "a" = docOfPayload p h.id ∧
        (docOfPayload ⟨"doc a", "content a", [], [1]⟩ "a").id = h.id) :=
  ⟨by decide,
   (search_materializes_hits_in_order wBackend "q" 5).1 _ (by decide)⟩

/-- Modelled from the spec: the two index-manager scope levels — the
scope-local manager bound to the resolved collection, and the store-wide
(cluster) manager. -/
inductive IndexLevel where
  | collection
  | global
deriving DecidableEq, Repr

/-- Modelled from the spec: `IndexDefinition` — the search-index definition
upserted by the index lifecycle manager. -/
structure SearchIndexDef where
  name : String
  source_type : String
  idx_type : String
  source_name : String
  uuid : String
  params : List (String × String)
  source_uuid : String
  source_params : List (String × String)
  plan_params : List (String × String)
deriving DecidableEq, Repr

/-- An observable call issued against an index manager. -/
inductive IndexOp where
  | drop_index (level : IndexLevel) (name : String)
  | upsert_index (level : IndexLevel) (defn : SearchIndexDef)
deriving DecidableEq, Repr

def isDropOp : IndexOp → Bool
  | .drop_index _ _ => true
  | _ => false

def isUpsertOp : IndexOp → Bool
  | .upsert_index _ _ => true
  | _ => false

/-- Configuration of the index lifecycle step: the overwrite flag, the
caller-supplied topology choice, and the index definition. -/
structure IndexConfig where
  overwrite : Bool
  is_global_level_index : Bool
  defn : SearchIndexDef
deriving DecidableEq, Repr

/-- Modelled from the spec: scope-level selection — `global` targets the
store-wide index manager, otherwise the scope-local one. -/
def indexLevelOf (cfg : IndexConfig) : IndexLevel :=
  if cfg.is_global_level_index then .global else .collection

/-- Modelled from the spec: the index-creation step of
`CouchbaseSearch.create` — with `overwrite=true`, drop any existing index of
the same name at the chosen level (ignoring "not found"), then upsert the new
definition; with `overwrite=false`, no-op when the index already exists,
otherwise upsert it.  Returns the trace of index-manager calls issued. -/
def create_fts_index (cfg : IndexConfig) (priorExists : Bool) : List IndexOp :=
  if cfg.overwrite then
    [.drop_index (indexLevelOf cfg) cfg.defn.name,
     .upsert_index (indexLevelOf cfg) cfg.defn]
  else if priorExists then []
  else [.upsert_index (indexLevelOf cfg) cfg.defn]

/-- Claim C2: for every prior state of the index and at either scope level,
`create` with `overwrite=true` issues exactly one drop of the index name
followed by exactly one upsert of the index definition, both against the
scope-appropriate index manager. -/
theorem create_overwrite_one_drop_then_one_upsert (cfg : IndexConfig) (priorExists : Bool)
    (h : cfg.overwrite = true) :
    create_fts_index cfg priorExists
      = [.drop_index (indexLevelOf cfg) cfg.defn.name,
         .upsert_index (indexLevelOf cfg) cfg.defn]
    ∧ (create_fts_index cfg priorExists).countP isDropOp = 1
    ∧ (create_fts_index cfg priorExists).countP isUpsertOp = 1 := by
  refine ⟨by simp [create_fts_index, h], ?_, ?_⟩ <;>
    simp [create_fts_index, h, List.countP_cons, isDropOp, isUpsertOp]

/-- A concrete index definition for witnesses. -/
def wIndexDef : SearchIndexDef :=
  ⟨"test_index", "couchbase", "fulltext-index", "test_collection", "test_uuid",
   [], "test_uuid", [], []⟩

theorem create_overwrite_one_drop_then_one_upsert_witness :
    (⟨true, true, wIndexDef⟩ : IndexConfig).overwrite = true ∧
    (create_fts_index ⟨true, true, wIndexDef⟩ true
      = [.drop_index (indexLevelOf ⟨true, true, wIndexDef⟩) wIndexDef.name,
         .upsert_index (indexLevelOf ⟨true, true, wIndexDef⟩) wIndexDef]
    ∧ (create_fts_index ⟨true, true, wIndexDef⟩ true).countP isDropOp = 1
    ∧ (create_fts_index ⟨true, true, wIndexDef⟩ true).countP isUpsertOp = 1) :=
  ⟨rfl, create_overwrite_one_drop_then_one_upsert ⟨true, true, wIndexDef⟩ true rfl⟩

/-- Modelled from the spec: an input document handed to the synchronizer —
`{name, content, meta_data}`; its id and embedding are computed by
`prepare_doc`. -/
structure InputDocument where
  name : String
  content : String
  meta_data : List (String × String)
deriving DecidableEq, Repr

/-- Modelled from the spec: the deterministic id derived from a document's
content (a content hash), so re-inserting identical content is idempotent. -/
def doc_id_of (content : String) : String :=
  toString (content.toList.foldl (fun h c => (h * 31 + c.toNat) % 1000000007) 7)

/-- Modelled from the spec: `StoredRecord` — the on-disk projection of a
document; the `filters` key is optional. -/
structure StoredRecord where
  _id : String
  name : String
  content : String
  meta_data : List (String × String)
  embedding : List Int
  filters : Option (List (String × String))
deriving DecidableEq, Repr

/-- Modelled from the spec: `CouchbaseSearch.prepare_doc` — computes the
deterministic id from the content, calls the embedder once, and attaches the
`filters` mapping only when the caller supplies a non-empty filters
argument. -/
def prepare_doc (embed : String → List Int) (filters : Option (List (String × String)))
    (d : InputDocument) : String × StoredRecord :=
  let id := doc_id_of d.content
  (id, { _id := id, name := d.name, content := d.content, meta_data := d.meta_data,
         embedding := embed d.content,
         filters := match filters with
                    | some f => if f.isEmpty then none else some f
                    | none => none })

/-- Modelled from the spec: the batch keyed by id that `insert`/`upsert`
hand to the KV tier's multi-record operation. -/
def build_batch (embed : String → List Int) (filters : Option (List (String × String)))
    (docs : List InputDocument) : List (String × StoredRecord) :=
  docs.map (prepare_doc embed filters)

/-- Modelled from the spec: the KV tier's multi-mutation response
`{all_ok, exceptions}`. -/
structure MultiMutationResult where
  all_ok : Bool
  exceptions : List (String × String)
deriving DecidableEq, Repr

/-- Modelled from the spec: `CouchbaseSearch.insert` — builds the batch,
issues one multi-record insert, and on `all_ok=false` logs the failed keys
and returns normally (never raises).  The first component is the log, the
second the returned outcome. -/
def insert (embed : String → List Int)
    (insert_multi : List (String × StoredRecord) → MultiMutationResult)
    (docs : List InputDocument) (filters : Option (List (String × String))) :
    List String × Except String Unit :=
  let res := insert_multi (build_batch embed filters docs)
  if res.all_ok then ([], .ok ())
  else (res.exceptions.map fun e => "Failed to insert document with key " ++ e.1, .ok ())

/-- Modelled from the spec: `CouchbaseSearch.upsert` — same shape as
`insert` but with overwrite semantics in the KV tier. -/
def upsert (embed : String → List Int)
    (upsert_multi : List (String × StoredRecord) → MultiMutationResult)
    (docs : List InputDocument) (filters : Option (List (String × String))) :
    List String × Except String Unit :=
  let res := upsert_multi (build_batch embed filters docs)
  if res.all_ok then ([], .ok ())
  else (res.exceptions.map fun e => "Failed to upsert document with key " ++ e.1, .ok ())

/-- Claim C3: whenever the backend multi-record operation reports
`all_ok=false` (with an exceptions map), both `insert` and `upsert` return
normally — the outcome is `.ok ()`, no exception propagates. -/
theorem batch_all_ok_false_returns_normally (embed : String → List Int)
    (ins ups : List (String × StoredRecord) → MultiMutationResult)
    (docs : List InputDocument) (filters : Option (List (String × String)))
    (hI : (ins (build_batch embed filters docs)).all_ok = false)
    (hU : (ups (build_batch embed filters docs)).all_ok = false) :
    (insert embed ins docs filters).2 = .ok ()
    ∧ (upsert embed ups docs filters).2 = .ok () := by
  constructor <;> simp [insert, upsert, hI, hU]

theorem batch_all_ok_false_returns_normally_witness :
    (insert (fun _ => [1]) (fun _ => ⟨false, [("k", "boom")]⟩)
        [⟨"n", "c", []⟩] none).2 = .ok ()
    ∧ (upsert (fun _ => [1]) (fun _ => ⟨false, [("k", "boom")]⟩)
        [⟨"n", "c", []⟩] none).2 = .ok () :=
  batch_all_ok_false_returns_normally (fun _ => [1])
    (fun _ => ⟨false, [("k", "boom")]⟩) (fun _ => ⟨false, [("k", "boom")]⟩)
    [⟨"n", "c", []⟩] none rfl rfl

/-- Claim C5: in every batch handed to the KV tier by `insert`/`upsert`, each
stored record carries `filters` equal to the supplied mapping exactly when a
non-empty filters argument was supplied; when filters is omitted or empty the
key is absent from every record. -/
theorem filters_key_present_iff_nonempty (embed : String → List Int)
    (docs : List InputDocument) (filters : Option (List (String × String))) :
    (∀ f, filters = some f → f ≠ [] →
        ∀ p ∈ build_batch embed filters docs, p.2.filters = some f)
    ∧ ((filters = none ∨ filters = some []) →
        ∀ p ∈ build_batch embed filters docs, p.2.filters = none) := by
  constructor
  · rintro f rfl hf p hp
    simp only [build_batch, List.mem_map] at hp
    obtain ⟨d, _, rfl⟩ := hp
    simp [prepare_doc, List.isEmpty_iff, hf]
  · rintro (rfl | rfl) p hp <;>
      · simp only [build_batch, List.mem_map] at hp
        obtain ⟨d, _, rfl⟩ := hp
        simp [prepare_doc]

theorem filters_key_present_iff_nonempty_witness :
    [("category", "test")] ≠ ([] : List (String × String)) ∧
    ∀ p ∈ build_batch (fun _ => [1]) (some [("category", "test")]) [⟨"n", "c", []⟩],
      p.2.filters = some [("category", "test")] :=
  ⟨by decide,
   (filters_key_present_iff_nonempty (fun _ => [1]) [⟨"n", "c", []⟩]
      (some [("category", "test")])).1 [("category", "test")] rfl (by decide)⟩

/-- Modelled from the spec: `CouchbaseSearch.id_exists` — point existence
check against the KV tier; any underlying exception is caught and treated as
`false`. -/
def id_exists (kv_exists : String → Except String Bool) (id : String) : Bool :=
  match kv_exists id with
  | .ok b => b
  | .error _ => false

/-- Modelled from the spec: `CouchbaseSearch.doc_exists` — existence check
for a document via its deterministic content id. -/
def doc_exists (kv_exists : String → Except String Bool) (d : InputDocument) : Bool :=
  id_exists kv_exists (doc_id_of d.content)

/-- Modelled from the spec: `CouchbaseSearch.name_exists` — issues a query
for the name and returns whether any row came back; catches any exception and
returns `false`. -/
def name_exists (run_query : String → Except String (List String)) (name : String) : Bool :=
  match run_query name with
  | .ok rows => !rows.isEmpty
  | .error _ => false

/-- Claim C4: whenever the underlying backend raises during `doc_exists`,
`id_exists` or `name_exists`, the exception is caught and the check returns
`false` — existence checks never propagate an error. -/
theorem existence_checks_swallow_errors (kv_exists : String → Except String Bool)
    (run_query : String → Except String (List String)) (d : InputDocument)
    (id nm e₁ e₂ e₃ : String)
    (h₁ : kv_exists id = .error e₁)
    (h₂ : kv_exists (doc_id_of d.content) = .error e₂)
    (h₃ : run_query nm = .error e₃) :
    id_exists kv_exists id = false
    ∧ doc_exists kv_exists d = false
    ∧ name_exists run_query nm = false := by
  refine ⟨?_, ?_, ?_⟩ <;> simp [id_exists, doc_exists, name_exists, h₁, h₂, h₃]

theorem existence_checks_swallow_errors_witness :
    id_exists (fun _ => .error "Test error") "test_id" = false
    ∧ doc_exists (fun _ => .error "Test error") ⟨"n", "test content", []⟩ = false
    ∧ name_exists (fun _ => .error "Query error") "test_doc" = false :=
  existence_checks_swallow_errors (fun _ => .error "Test error")
    (fun _ => .error "Query error") ⟨"n", "test content", []⟩
    "test_id" "test_doc" "Test error" "Test error" "Query error" rfl rfl rfl

/-- Modelled from the spec: one scope as reported by the bucket's scope
enumeration — its name and the names of the collections under it. -/
structure ScopeSpec where
  name : String
  collections : List String
deriving DecidableEq, Repr

/-- An observable topology-mutation call issued against the bucket's
collection manager. -/
inductive TopoOp where
  | create_scope (name : String)
  | create_collection (scope_name coll_name : String)
deriving DecidableEq, Repr

/-- Modelled from the spec: `CollectionHandle` — the
`{bucket, scope_name, collection_name}` triple resolved by the topology
resolver. -/
structure CollectionHandle where
  bucket_name : String
  scope_name : String
  collection_name : String
deriving DecidableEq, Repr

/-- The adapter's configured target names. -/
structure TopoConfig where
  bucket_name : String
  scope_name : String
  collection_name : String
deriving DecidableEq, Repr

/-- Whether the enumerated scopes contain the named scope with the named
collection under it. -/
def scope_has_collection (scopes : List ScopeSpec) (scope_name coll : String) : Bool :=
  scopes.any fun s => s.name == scope_name && s.collections.contains coll

/-- Modelled from the spec:
`CouchbaseSearch._get_or_create_collection_and_scope` — enumerate the
bucket's scopes; if the configured scope exists with the configured
collection, return the handle with no mutation; if the scope name is the
reserved `"_default"` namespace, never create the scope and only create the
collection; otherwise create the scope then the collection.  Returns the
trace of creation calls and the resolved handle. -/
def get_or_create_collection_and_scope (cfg : TopoConfig) (scopes : List ScopeSpec) :
    List TopoOp × CollectionHandle :=
  let handle : CollectionHandle :=
    ⟨cfg.bucket_name, cfg.scope_name, cfg.collection_name⟩
  if scope_has_collection scopes cfg.scope_name cfg.collection_name then
    ([], handle)
  else if cfg.scope_name = "_default" then
    ([.create_collection cfg.scope_name cfg.collection_name], handle)
  else
    ([.create_scope cfg.scope_name,
      .create_collection cfg.scope_name cfg.collection_name], handle)

/-- Claim C6: when the configured scope name is the reserved `"_default"`
namespace, `get_or_create_collection_and_scope` never issues a scope-creation
call, creates the collection exactly when it is missing, and returns the
resolved collection handle. -/
theorem default_scope_is_never_created (cfg : TopoConfig) (scopes : List ScopeSpec)
    (h : cfg.scope_name = "_default") :
    (∀ n, TopoOp.create_scope n ∉ (get_or_create_collection_and_scope cfg scopes).1)
    ∧ (get_or_create_collection_and_scope cfg scopes).1
        = (if scope_has_collection scopes cfg.scope_name cfg.collection_name then []
           else [.create_collection cfg.scope_name cfg.collection_name])
    ∧ (get_or_create_collection_and_scope cfg scopes).2
        = ⟨cfg.bucket_name, cfg.scope_name, cfg.collection_name⟩ := by
  by_cases hc : scope_has_collection scopes cfg.scope_name cfg.collection_name = true
  · refine ⟨?_, ?_, ?_⟩ <;> simp [get_or_create_collection_and_scope, hc]
  · rw [h] at hc
    refine ⟨?_, ?_, ?_⟩ <;> simp [get_or_create_collection_and_scope, h, hc]

theorem default_scope_is_never_created_witness :
    (⟨"test_bucket", "_default", "test_collection"⟩ : TopoConfig).scope_name = "_default"
    ∧ (∀ n, TopoOp.create_scope n ∉
        (get_or_create_collection_and_scope ⟨"test_bucket", "_default", "test_collection"⟩
          [⟨"_default", []⟩]).1)
    ∧ (get_or_create_collection_and_scope ⟨"test_bucket", "_default", "test_collection"⟩
          [⟨"_default", []⟩]).1
        = (if scope_has_collection [⟨"_default", []⟩] "_default" "test_collection" then []
           else [.create_collection "_default" "test_collection"]) :=
  ⟨rfl,
   (default_scope_is_never_created ⟨"test_bucket", "_default", "test_collection"⟩
      [⟨"_default", []⟩] rfl).1,
   (default_scope_is_never_created ⟨"test_bucket", "_default", "test_collection"⟩
      [⟨"_default", []⟩] rfl).2.1⟩

/-- Modelled from the spec: the index metadata polled by `waitUntilReady`
— configured and actual replica counts from the index's plan params. -/
structure IndexStatus where
  num_replicas : Nat
  num_replicas_actual : Nat
deriving DecidableEq, Repr

/-- Modelled from the spec: readiness — the actual replica count has reached
the configured replica count. -/
def index_ready (st : IndexStatus) : Bool :=
  st.num_replicas ≤ st.num_replicas_actual

/-- The payload of the raised `TimeoutError`: elapsed time units at the
moment of raising, and how many readiness checks were performed. -/
structure WaitTimeout where
  elapsed : Nat
  checks : Nat
deriving DecidableEq, Repr

/-- Modelled from the spec: the polling loop of
`CouchbaseSearch._wait_for_index_ready`, on discrete time with a fixed poll
interval of one time unit: check readiness, return when ready, declare
timeout only once `elapsed` has reached `timeout`, otherwise sleep one unit
and re-poll.  `poll t` is the index metadata observed at time `t`; `fuel`
bounds the recursion and is chosen large enough in `wait_for_index_ready`. -/
def wait_poll (poll : Nat → IndexStatus) (timeout : Nat) :
    Nat → Nat → Nat → Except WaitTimeout Nat
  | fuel, elapsed, checks =>
    if index_ready (poll elapsed) then .ok elapsed
    else if timeout ≤ elapsed then .error ⟨elapsed, checks + 1⟩
    else
      match fuel with
      | 0 => .error ⟨elapsed, checks + 1⟩
      | f + 1 => wait_poll poll timeout f (elapsed + 1) (checks + 1)

/-- Modelled from the spec: `CouchbaseSearch._wait_for_index_ready` — polls
from time 0; `timeout` units of fuel always suffice for the loop to reach the
timeout condition. -/
def wait_for_index_ready (poll : Nat → IndexStatus) (timeout : Nat) :
    Except WaitTimeout Nat :=
  wait_poll poll timeout timeout 0 0

theorem wait_poll_never_ready (poll : Nat → IndexStatus) (timeout : Nat)
    (h : ∀ t, index_ready (poll t) = false) :
    ∀ fuel elapsed checks, timeout ≤ elapsed + fuel →
      ∃ w : WaitTimeout, wait_poll poll timeout fuel elapsed checks = .error w
        ∧ timeout ≤ w.elapsed ∧ checks + 1 ≤ w.checks := by
  intro fuel
  induction fuel with
  | zero =>
    intro elapsed checks hle
    rw [Nat.add_zero] at hle
    exact ⟨⟨elapsed, checks + 1⟩, by rw [wait_poll, h elapsed, if_neg (by simp), if_pos hle],
      hle, Nat.le_refl _⟩
  | succ f ih =>
    intro elapsed checks hle
    by_cases ht : timeout ≤ elapsed
    · exact ⟨⟨elapsed, checks + 1⟩, by rw [wait_poll, h elapsed, if_neg (by simp), if_pos ht],
        ht, Nat.le_refl _⟩
    · obtain ⟨w, hw, hw1, hw2⟩ := ih (elapsed + 1) (checks + 1) (by omega)
      refine ⟨w, ?_, hw1, by omega⟩
      rw [wait_poll, h elapsed, if_neg (by simp), if_neg ht]
      exact hw

/-- Claim C7: whenever the index's actual replica count stays below its
configured replica count at every poll, `wait_for_index_ready` raises a
`TimeoutError` whose elapsed time is at least the configured timeout (never
before), having checked readiness at least once even for a zero or near-zero
timeout. -/
theorem wait_timeout_after_full_wait (poll : Nat → IndexStatus) (timeout : Nat)
    (h : ∀ t, (poll t).num_replicas_actual < (poll t).num_replicas) :
    ∃ w : WaitTimeout, wait_for_index_ready poll timeout = .error w
      ∧ timeout ≤ w.elapsed ∧ 1 ≤ w.checks := by
  have hready : ∀ t, index_ready (poll t) = false := by
    intro t
    simp only [index_ready, decide_eq_false_iff_not, Nat.not_le]
    exact h t
  obtain ⟨w, hw, hw1, hw2⟩ :=
    wait_poll_never_ready poll timeout hready timeout 0 0 (by omega)
  exact ⟨w, hw, hw1, hw2⟩

theorem wait_timeout_after_full_wait_witness :
    ∃ w : WaitTimeout, wait_for_index_ready (fun _ => ⟨2, 1⟩) 0 = .error w
      ∧ 0 ≤ w.elapsed ∧ 1 ≤ w.checks :=
  wait_timeout_after_full_wait (fun _ => ⟨2, 1⟩) 0 (fun _ => Nat.one_lt_two)

/-- Modelled from the spec: `CouchbaseSearch.get_count` — asks the
collection-local or the store-wide index manager, according to the configured
topology, for the indexed-document count; any exception yields `0` and never
propagates. -/
def get_count (is_global_level_index : Bool) (index_name : String)
    (cluster_count scope_count : String → Except String Nat) : Nat :=
  match (if is_global_level_index then cluster_count index_name
         else scope_count index_name) with
  | .ok n => n
  | .error _ => 0

/-- Claim C8: `get_count` returns the count reported by the
topology-appropriate index manager (global when `is_global_level_index`,
collection-local otherwise), and whenever that manager raises it returns `0`
instead of propagating the error. -/
theorem get_count_topology_and_fail_open (is_global_level_index : Bool)
    (index_name : String) (cluster_count scope_count : String → Except String Nat) :
    (∀ n, (if is_global_level_index then cluster_count index_name
           else scope_count index_name) = .ok n →
      get_count is_global_level_index index_name cluster_count scope_count = n)
    ∧ (∀ e, (if is_global_level_index then cluster_count index_name
             else scope_count index_name) = .error e →
      get_count is_global_level_index index_name cluster_count scope_count = 0) := by
  constructor
  · intro n hn
    simp [get_count, hn]
  · intro e he
    simp [get_count, he]

theorem get_count_topology_and_fail_open_witness :
    get_count true "test_index" (fun _ => .ok 42) (fun _ => .ok 0) = 42
    ∧ get_count false "test_index" (fun _ => .ok 0) (fun _ => .error "boom") = 0 :=
  ⟨(get_count_topology_and_fail_open true "test_index"
      (fun _ => .ok 42) (fun _ => .ok 0)).1 42 rfl,
   (get_count_topology_and_fail_open false "test_index"
      (fun _ => .ok 0) (fun _ => .error "boom")).2 "boom" rfl⟩

/-- An observable network call issued during adapter construction. -/
inductive NetCall where
  | cluster_connect
  | get_bucket (name : String)
deriving DecidableEq, Repr

/-- The error kinds construction can raise: `invalid_argument` models a
`ValueError`, `connection_error` a `ConnectionError` wrapping its cause, and
`bucket_not_found` the propagated bucket-not-found exception. -/
inductive InitError where
  | invalid_argument (msg : String)
  | connection_error (msg : String)
  | bucket_not_found (msg : String)
deriving DecidableEq, Repr

/-- Construction parameters of the adapter. -/
structure InitConfig where
  bucket_name : String
  scope_name : String
  collection_name : String
  connection_string : String
deriving DecidableEq, Repr

/-- Modelled from the spec: `CouchbaseSearch.__init__` — validates that the
bucket name is non-empty before any network call (`ValueError` on failure),
then connects to the cluster (wrapping any failure in a `ConnectionError`)
and resolves the bucket (propagating bucket-not-found unwrapped).  Returns
the trace of network calls issued together with the outcome. -/
def init_adapter (cfg : InitConfig) (connect : String → Except String Unit)
    (fetch_bucket : String → Except String Unit) :
    List NetCall × Except InitError InitConfig :=
  if cfg.bucket_name = "" then
    ([], .error (.invalid_argument "Bucket name must not be empty."))
  else
    match connect cfg.connection_string with
    | .error e =>
      ([.cluster_connect], .error (.connection_error ("Failed to connect to Couchbase: " ++ e)))
    | .ok _ =>
      match fetch_bucket cfg.bucket_name with
      | .error e => ([.cluster_connect, .get_bucket cfg.bucket_name],
                     .error (.bucket_not_found e))
      | .ok _ => ([.cluster_connect, .get_bucket cfg.bucket_name], .ok cfg)

/-- Claim C9: constructing the adapter with an empty bucket name fails fast
with the `ValueError`-class `invalid_argument` error and issues no network
call at all. -/
theorem empty_bucket_name_fails_fast (cfg : InitConfig)
    (connect fetch_bucket : String → Except String Unit)
    (h : cfg.bucket_name = "") :
    init_adapter cfg connect fetch_bucket
      = ([], .error (.invalid_argument "Bucket name must not be empty.")) := by
  simp [init_adapter, h]

theorem empty_bucket_name_fails_fast_witness :
    init_adapter ⟨"", "test_scope", "test_collection", "couchbase://localhost"⟩
        (fun _ => .ok ()) (fun _ => .ok ())
      = ([], .error (.invalid_argument "Bucket name must not be empty.")) :=
  empty_bucket_name_fails_fast ⟨"", "test_scope", "test_collection", "couchbase://localhost"⟩
    (fun _ => .ok ()) (fun _ => .ok ()) rfl

/-- Modelled from the spec: `CouchbaseSearch.exists` — enumerates the
bucket's scopes and reports whether the configured scope contains the
configured collection; any exception during enumeration yields `false`. -/
def collection_exists (cfg : TopoConfig)
    (get_all_scopes : Unit → Except String (List ScopeSpec)) : Bool :=
  match get_all_scopes () with
  | .ok scopes => scope_has_collection scopes cfg.scope_name cfg.collection_name
  | .error _ => false

/-- Claim C10: the `exists` probe returns `true` iff the scope enumeration
yields a scope named like the configured scope containing a collection named
like the configured collection; and whenever the enumeration raises, it
returns `false` instead of propagating. -/
theorem exists_probe_characterization (cfg : TopoConfig)
    (get_all_scopes : Unit → Except String (List ScopeSpec)) :
    (∀ scopes, get_all_scopes () = .ok scopes →
      (collection_exists cfg get_all_scopes = true
        ↔ ∃ s ∈ scopes, s.name = cfg.scope_name ∧ cfg.collection_name ∈ s.collections))
    ∧ (∀ e, get_all_scopes () = .error e →
        collection_exists cfg get_all_scopes = false) := by
  constructor
  · intro scopes hs
    simp [collection_exists, hs, scope_has_collection, List.any_eq_true]
  · intro e he
    simp [collection_exists, he]

theorem exists_probe_characterization_witness :
    (collection_exists ⟨"test_bucket", "test_scope", "test_collection"⟩
        (fun _ => .ok [⟨"test_scope", ["test_collection"]⟩]) = true
      ↔ ∃ s ∈ [(⟨"test_scope", ["test_collection"]⟩ : ScopeSpec)],
          s.name = "test_scope" ∧ "test_collection" ∈ s.collections)
    ∧ collection_exists ⟨"test_bucket", "test_scope", "test_collection"⟩
        (fun _ => .error "Test error") = false :=
  ⟨(exists_probe_characterization ⟨"test_bucket", "test_scope", "test_collection"⟩
      (fun _ => .ok [⟨"test_scope", ["test_collection"]⟩])).1
      [⟨"test_scope", ["test_collection"]⟩] rfl,
   (exists_probe_characterization ⟨"test_bucket", "test_scope", "test_collection"⟩
      (fun _ => .error "Test error")).2 "Test error" rfl⟩

end Agno
